import Mathlib

/-!
Verification of the CachetAPI HTTP client (src/CachetAPI.js).

The client is a thin wrapper around an axios instance: every method builds one
relative URL, issues one HTTP request through the instance, and either unwraps
the doubly nested response envelope (axios wraps the body in a `data` field and
the Cachet service wraps the payload in another `data` field) or converts a
thrown transport error into a single normalized Error via `createError`.

The embedding models JavaScript values, truthiness, property access, string
coercion and JSON serialization directly, and each client method as a function
from a transport oracle to its outcome together with the list of requests it
issued.
-/

/-- A JavaScript value, as manipulated by the client: request/response bodies,
ids interpolated into URLs, the optional `with_meta` flag, and fields of
the `response` object of an axios error. Numbers are modelled as integers (the client
only ever handles integral ids and HTTP status codes). -/
inductive JSValue where
  | undefined : JSValue
  | null : JSValue
  | bool (b : Bool) : JSValue
  | num (n : Int) : JSValue
  | str (s : String) : JSValue
  | arr (xs : List JSValue) : JSValue
  | obj (fields : List (String × JSValue)) : JSValue
deriving Repr

/-- JavaScript truthiness, as used by `if (with_meta)`, `if (error && error.response)`
and the field guards inside `createError`. -/
def truthy : JSValue → Bool
  | JSValue.undefined => false
  | JSValue.null => false
  | JSValue.bool b => b
  | JSValue.num n => n != 0
  | JSValue.str s => s != ""
  | JSValue.arr _ => true
  | JSValue.obj _ => true

/-- First binding of a key in the field list of an object; a missing key reads as
`undefined`, as in JavaScript. -/
def lookupField : List (String × JSValue) → String → JSValue
  | [], _ => JSValue.undefined
  | (k, v) :: fs, key => if k = key then v else lookupField fs key

/-- Property access `v[k]` on a value known not to be `null`/`undefined`
(objects yield the field, everything else yields `undefined`). Used for the
accesses inside `createError`, which are guarded by a truthiness check. -/
def getProp (v : JSValue) (k : String) : JSValue :=
  match v with
  | JSValue.obj fs => lookupField fs k
  | _ => JSValue.undefined

/-- Property access `v[k]` in statement position: reading a property of
`null`/`undefined` throws a TypeError, which the client methods do not catch
(the `return response.data.data` lines sit outside the try block). -/
def getField : JSValue → String → Except Unit JSValue
  | JSValue.undefined, _ => Except.error ()
  | JSValue.null, _ => Except.error ()
  | JSValue.obj fs, k => Except.ok (lookupField fs k)
  | _, _ => Except.ok JSValue.undefined

mutual

/-- JavaScript string coercion (`"" + v`), used when an id is interpolated into
a URL and when `error.response.status` is appended to the diagnostic. -/
def jsToString : JSValue → String
  | JSValue.undefined => "undefined"
  | JSValue.null => "null"
  | JSValue.bool b => cond b "true" "false"
  | JSValue.num n => toString n
  | JSValue.str s => s
  | JSValue.arr xs => jsArrToString xs
  | JSValue.obj _ => "[object Object]"

/-- Array-to-string: elements joined by commas, `null` and `undefined`
rendering as empty, as in JavaScript `Array.prototype.toString`. -/
def jsArrToString : List JSValue → String
  | [] => ""
  | [JSValue.undefined] => ""
  | [JSValue.null] => ""
  | [x] => jsToString x
  | JSValue.undefined :: xs => "," ++ jsArrToString xs
  | JSValue.null :: xs => "," ++ jsArrToString xs
  | x :: xs => jsToString x ++ "," ++ jsArrToString xs

end

/-- Hex digit for JSON control-character escapes. -/
def hexDigit (n : Nat) : String :=
  if n = 0 then "0" else if n = 1 then "1" else if n = 2 then "2"
  else if n = 3 then "3" else if n = 4 then "4" else if n = 5 then "5"
  else if n = 6 then "6" else if n = 7 then "7" else if n = 8 then "8"
  else if n = 9 then "9" else if n = 10 then "a" else if n = 11 then "b"
  else if n = 12 then "c" else if n = 13 then "d" else if n = 14 then "e"
  else "f"

/-- JSON escaping of a single character inside a string literal. -/
def jsonEscapeChar (c : Char) : String :=
  if c = '"' then "\\\""
  else if c = '\\' then "\\\\"
  else if c = '\n' then "\\n"
  else if c = '\r' then "\\r"
  else if c = '\t' then "\\t"
  else if c.toNat = 8 then "\\b"
  else if c.toNat = 12 then "\\f"
  else if c.toNat < 32 then "\\u00" ++ hexDigit (c.toNat / 16) ++ hexDigit (c.toNat % 16)
  else String.singleton c

/-- JSON string literal with escapes. -/
def jsonQuote (s : String) : String :=
  "\"" ++ String.join (s.data.map jsonEscapeChar) ++ "\""

mutual

/-- `JSON.stringify`, as called on `error.response.data` in `createError`.
(The call site guards on truthiness, so the `undefined` case is unreachable
there; its value matches what `+= JSON.stringify(undefined)` would append.) -/
def jsonStringify : JSValue → String
  | JSValue.undefined => "undefined"
  | JSValue.null => "null"
  | JSValue.bool b => cond b "true" "false"
  | JSValue.num n => toString n
  | JSValue.str s => jsonQuote s
  | JSValue.arr xs => "[" ++ jsonArrBody xs ++ "]"
  | JSValue.obj fs => "\x7b" ++ jsonObjBody fs ++ "\x7d"

/-- JSON array elements, `undefined` rendering as `null`. -/
def jsonArrBody : List JSValue → String
  | [] => ""
  | [JSValue.undefined] => "null"
  | [x] => jsonStringify x
  | JSValue.undefined :: xs => "null," ++ jsonArrBody xs
  | x :: xs => jsonStringify x ++ "," ++ jsonArrBody xs

/-- JSON object fields, `undefined`-valued fields skipped. -/
def jsonObjBody : List (String × JSValue) → String
  | [] => ""
  | (_, JSValue.undefined) :: fs => jsonObjBody fs
  | (k, v) :: fs => jsonQuote k ++ ":" ++ jsonStringify v ++ jsonObjRest fs

/-- Remaining JSON object fields, each preceded by a comma. -/
def jsonObjRest : List (String × JSValue) → String
  | [] => ""
  | (_, JSValue.undefined) :: fs => jsonObjRest fs
  | (k, v) :: fs => "," ++ jsonQuote k ++ ":" ++ jsonStringify v ++ jsonObjRest fs

end

/-- The caught error object `e` in the catch block of an operation: its `response`
property (`undefined` for a network error without any HTTP response, an object
carrying `status`/`statusText`/`data` for an HTTP error response) and the
result of `e.toString()`. A thrown axios error is always itself truthy. -/
structure JSError where
  response : JSValue
  str : String

/-- The axios response object for a non-throwing call: HTTP status metadata and
the parsed body in its `data` field. -/
structure AxiosResponse where
  status : JSValue
  statusText : JSValue
  data : JSValue

/-- `createError(url, type, error)` — builds the single normalized Error.
When `error.response` is truthy the diagnostic concatenates the truthy fields:
status followed by a space, statusText followed by " | ", and the
JSON-serialized body; otherwise it is `error.toString()`. -/
def createError (url : String) (type : String) (error : JSError) : String :=
  let extraErrorText :=
    if truthy error.response then
      (if truthy (getProp error.response "status") then
        jsToString (getProp error.response "status") ++ " " else "")
      ++ (if truthy (getProp error.response "statusText") then
        jsToString (getProp error.response "statusText") ++ " | " else "")
      ++ (if truthy (getProp error.response "data") then
        jsonStringify (getProp error.response "data") else "")
    else
      error.str
  "Unable to " ++ type ++ " " ++ url ++ ": " ++ extraErrorText

/-- One outbound HTTP request: method, relative URL (the axios instance holds
the base URL), and body (`undefined` for GET/DELETE). -/
structure Request where
  method : String
  url : String
  body : JSValue

/-- A transport oracle: what the axios instance does with each issued request —
either resolves with a response or throws an error. -/
def Transport := Request → Except JSError AxiosResponse

/-- Outcome of one client method: a returned value, the normalized Error
thrown via `createError`, or an uncaught TypeError raised by the
`response.data.data` access outside the try block. -/
inductive OpOutcome where
  | ok (v : JSValue) : OpOutcome
  | apiError (msg : String) : OpOutcome
  | typeError : OpOutcome
deriving Repr

/-- The shared try/catch shape of every client method: issue the single request
for (`type`, `url`, `body`); a thrown transport error is replaced by the
normalized `createError` message, a resolved response is handed to the
return expression `k` of the method. Returns the outcome together with the list of
requests issued. -/
def runOp (type : String) (url : String) (body : JSValue)
    (k : AxiosResponse → OpOutcome) (t : Transport) : OpOutcome × List Request :=
  let req : Request := ⟨type, url, body⟩
  match t req with
  | Except.error e => (OpOutcome.apiError (createError url type e), [req])
  | Except.ok response => (k response, [req])

/-- `return response.data.data` — unwrap the axios envelope and then the Cachet
service envelope (a TypeError escapes if the body is null or undefined). -/
def unwrapData (response : AxiosResponse) : OpOutcome :=
  match getField response.data "data" with
  | Except.ok v => OpOutcome.ok v
  | Except.error _ => OpOutcome.typeError

/-- `if (with_meta) return response.data; else return response.data.data` —
the return expression of the list-style methods that take the flag. -/
def withMeta (with_meta : JSValue) (response : AxiosResponse) : OpOutcome :=
  if truthy with_meta then OpOutcome.ok response.data else unwrapData response

/-- `return true` — the return expression of every delete method, which never
inspects the response. -/
def returnTrue (_response : AxiosResponse) : OpOutcome :=
  OpOutcome.ok (JSValue.bool true)

/- The client methods, one definition per source method, in source order.
Ids are JSValues interpolated into the URL by JavaScript string coercion. -/

def ping (t : Transport) : OpOutcome × List Request :=
  runOp "GET" "/v1/ping" JSValue.undefined unwrapData t

def getVersion (with_meta : JSValue) (t : Transport) : OpOutcome × List Request :=
  runOp "GET" "/v1/version" JSValue.undefined (withMeta with_meta) t

def getComponents (with_meta : JSValue) (t : Transport) : OpOutcome × List Request :=
  runOp "GET" "/v1/components" JSValue.undefined (withMeta with_meta) t

def getComponent (component_id : JSValue) (t : Transport) : OpOutcome × List Request :=
  runOp "GET" ("/v1/components/" ++ jsToString component_id) JSValue.undefined unwrapData t

def addComponent (component : JSValue) (t : Transport) : OpOutcome × List Request :=
  runOp "POST" "/v1/components" component unwrapData t

def updateComponent (component_id : JSValue) (component : JSValue) (t : Transport) :
    OpOutcome × List Request :=
  runOp "PUT" ("/v1/components/" ++ jsToString component_id) component unwrapData t

def deleteComponent (component_id : JSValue) (t : Transport) : OpOutcome × List Request :=
  runOp "DELETE" ("/v1/components/" ++ jsToString component_id) JSValue.undefined returnTrue t

def getComponentGroups (with_meta : JSValue) (t : Transport) : OpOutcome × List Request :=
  runOp "GET" "/v1/components/groups" JSValue.undefined (withMeta with_meta) t

def getComponentGroup (group_id : JSValue) (t : Transport) : OpOutcome × List Request :=
  runOp "GET" ("/v1/components/groups/" ++ jsToString group_id) JSValue.undefined unwrapData t

def addComponentGroup (group : JSValue) (t : Transport) : OpOutcome × List Request :=
  runOp "POST" "/v1/components/groups" group unwrapData t

def updateComponentGroup (group_id : JSValue) (group : JSValue) (t : Transport) :
    OpOutcome × List Request :=
  runOp "PUT" ("/v1/components/groups/" ++ jsToString group_id) group unwrapData t

def deleteComponentGroup (group_id : JSValue) (t : Transport) : OpOutcome × List Request :=
  runOp "DELETE" ("/v1/components/groups/" ++ jsToString group_id) JSValue.undefined returnTrue t

def getIncidents (with_meta : JSValue) (t : Transport) : OpOutcome × List Request :=
  runOp "GET" "/v1/incidents" JSValue.undefined (withMeta with_meta) t

def getIncident (incident_id : JSValue) (t : Transport) : OpOutcome × List Request :=
  runOp "GET" ("/v1/incidents/" ++ jsToString incident_id) JSValue.undefined unwrapData t

def addIncident (incident : JSValue) (t : Transport) : OpOutcome × List Request :=
  runOp "POST" "/v1/incidents" incident unwrapData t

def updateIncident (incident_id : JSValue) (incident : JSValue) (t : Transport) :
    OpOutcome × List Request :=
  runOp "PUT" ("/v1/incidents/" ++ jsToString incident_id) incident unwrapData t

def deleteIncident (incident_id : JSValue) (t : Transport) : OpOutcome × List Request :=
  runOp "DELETE" ("/v1/incidents/" ++ jsToString incident_id) JSValue.undefined returnTrue t

def getIncidentUpdates (incident_id : JSValue) (with_meta : JSValue) (t : Transport) :
    OpOutcome × List Request :=
  runOp "GET" ("/v1/incidents/" ++ jsToString incident_id ++ "/updates") JSValue.undefined
    (withMeta with_meta) t

def getIncidentUpdate (incident_id : JSValue) (update_id : JSValue) (t : Transport) :
    OpOutcome × List Request :=
  runOp "GET" ("/v1/incidents/" ++ jsToString incident_id ++ "/updates/" ++ jsToString update_id)
    JSValue.undefined unwrapData t

def addIncidentUpdate (incident_id : JSValue) (update : JSValue) (t : Transport) :
    OpOutcome × List Request :=
  runOp "POST" ("/v1/incidents/" ++ jsToString incident_id ++ "/updates") update unwrapData t

def updateIncidentUpdate (incident_id : JSValue) (update_id : JSValue) (update : JSValue)
    (t : Transport) : OpOutcome × List Request :=
  runOp "PUT" ("/v1/incidents/" ++ jsToString incident_id ++ "/updates/" ++ jsToString update_id)
    update unwrapData t

def deleteIncidentUpdate (incident_id : JSValue) (update_id : JSValue) (t : Transport) :
    OpOutcome × List Request :=
  runOp "DELETE" ("/v1/incidents/" ++ jsToString incident_id ++ "/updates/" ++ jsToString update_id)
    JSValue.undefined returnTrue t

def getMetrics (with_meta : JSValue) (t : Transport) : OpOutcome × List Request :=
  runOp "GET" "/v1/metrics" JSValue.undefined (withMeta with_meta) t

def getMetric (metric_id : JSValue) (t : Transport) : OpOutcome × List Request :=
  runOp "GET" ("/v1/metrics/" ++ jsToString metric_id) JSValue.undefined unwrapData t

def addMetric (metric : JSValue) (t : Transport) : OpOutcome × List Request :=
  runOp "POST" "/v1/metrics" metric unwrapData t

def deleteMetric (metric_id : JSValue) (t : Transport) : OpOutcome × List Request :=
  runOp "DELETE" ("/v1/metrics/" ++ jsToString metric_id) JSValue.undefined returnTrue t

/-- `getMetricPoints(metric_id)` takes no `with_meta` flag in the source and
always returns `response.data.data`. -/
def getMetricPoints (metric_id : JSValue) (t : Transport) : OpOutcome × List Request :=
  runOp "GET" ("/v1/metrics/" ++ jsToString metric_id ++ "/points") JSValue.undefined unwrapData t

def addMetricPoint (metric_id : JSValue) (point : JSValue) (t : Transport) :
    OpOutcome × List Request :=
  runOp "POST" ("/v1/metrics/" ++ jsToString metric_id ++ "/points") point unwrapData t

def deleteMetricPoint (metric_id : JSValue) (point_id : JSValue) (t : Transport) :
    OpOutcome × List Request :=
  runOp "DELETE" ("/v1/metrics/" ++ jsToString metric_id ++ "/points/" ++ jsToString point_id)
    JSValue.undefined returnTrue t

/-- `getSubscribers()` takes no `with_meta` flag in the source and always
returns `response.data.data`. -/
def getSubscribers (t : Transport) : OpOutcome × List Request :=
  runOp "GET" "/v1/subscribers" JSValue.undefined unwrapData t

def addSubscriber (subscriber : JSValue) (t : Transport) : OpOutcome × List Request :=
  runOp "POST" "/v1/subscribers" subscriber unwrapData t

def deleteSubscriber (subscriber_id : JSValue) (t : Transport) : OpOutcome × List Request :=
  runOp "DELETE" ("/v1/subscribers/" ++ jsToString subscriber_id) JSValue.undefined returnTrue t

/-- The options object passed to the constructor: its `url` and `apiToken`
properties (`undefined` when the caller omitted them). -/
structure CachetOptions where
  url : JSValue
  apiToken : JSValue

/-- The constructed client: the fixed base URL of the axios instance and the fixed
per-request "X-Cachet-Token" header value. -/
structure Client where
  baseURL : JSValue
  cachetTokenHeader : JSValue

/-- The constructor: throws when the options object is absent or its `url` is
falsy; otherwise creates the axios instance (`axios.create` issues no request,
hence the empty request list) bound to the url with the token header. -/
def mkCachetAPI : Option CachetOptions → Except String (Client × List Request)
  | none => Except.error "Error! options.url a is required option!"
  | some options =>
      if truthy options.url then
        Except.ok (⟨options.url, options.apiToken⟩, [])
      else
        Except.error "Error! options.url a is required option!"

/- Concrete example inputs used by the witnesses and counterexamples below. -/

/-- A caught error carrying an HTTP error response (a 404 with a JSON body). -/
def errWithResponse : JSError :=
  ⟨JSValue.obj [("status", JSValue.num 404), ("statusText", JSValue.str "Not Found"),
      ("data", JSValue.obj [("message", JSValue.str "not found")])],
    "Error: Request failed with status code 404"⟩

/-- A caught network error with no response object at all. -/
def errNoResponse : JSError := ⟨JSValue.undefined, "Error: Network Error"⟩

/-- A caught error whose response object exists but carries none of the three
diagnostic fields. -/
def errEmptyResponse : JSError := ⟨JSValue.obj [], "Error: boom"⟩

/-- A transport on which every request throws the 404 error. -/
def failTransport : Transport := fun _ => Except.error errWithResponse

/-- A well-formed list envelope: payload sequence under the data key plus
pagination metadata under the meta key. -/
def okBody : JSValue :=
  JSValue.obj [("data", JSValue.arr [JSValue.num 1, JSValue.num 2]),
    ("meta", JSValue.obj [("on_latest", JSValue.bool true)])]

/-- A 200 response carrying `okBody`. -/
def okResponse : AxiosResponse := ⟨JSValue.num 200, JSValue.str "OK", okBody⟩

/-- A transport on which every request resolves with `okResponse`. -/
def okTransport : Transport := fun _ => Except.ok okResponse

/-- A successful delete-style response whose status is 500 and whose body is
nonempty: the delete methods must ignore both. -/
def weirdDeleteResponse : AxiosResponse :=
  ⟨JSValue.num 500, JSValue.str "Server Error", JSValue.obj [("oops", JSValue.bool true)]⟩

/-- A transport on which every request resolves with `weirdDeleteResponse`. -/
def weirdDeleteTransport : Transport := fun _ => Except.ok weirdDeleteResponse

/-- A subscribers list envelope with both data and meta, used to show that
`getSubscribers` can never return the raw envelope. -/
def subscribersEnvelope : JSValue :=
  JSValue.obj [("data", JSValue.arr [JSValue.obj [("email", JSValue.str "email@example.com")]]),
    ("meta", JSValue.obj [("pagination", JSValue.obj [])])]

/-- A transport resolving every request with the subscribers envelope. -/
def subscribersTransport : Transport :=
  fun _ => Except.ok ⟨JSValue.num 200, JSValue.str "OK", subscribersEnvelope⟩

/-- A metric-points list envelope with both data and meta, used to show that
`getMetricPoints` can never return the raw envelope. -/
def metricPointsEnvelope : JSValue :=
  JSValue.obj [("data", JSValue.arr [JSValue.obj [("value", JSValue.num 7)]]),
    ("meta", JSValue.obj [("pagination", JSValue.obj [])])]

/-- A transport resolving every request with the metric-points envelope. -/
def metricPointsTransport : Transport :=
  fun _ => Except.ok ⟨JSValue.num 200, JSValue.str "OK", metricPointsEnvelope⟩

/-- A success body that is an object lacking the data key (a malformed
service envelope). -/
def bodyMissingData : JSValue := JSValue.obj [("id", JSValue.num 1)]

/-- A 200 response whose body lacks the data key. -/
def missingDataTransport : Transport :=
  fun _ => Except.ok ⟨JSValue.num 200, JSValue.str "OK", bodyMissingData⟩

/-- A 200 response whose body is null. -/
def nullBodyTransport : Transport :=
  fun _ => Except.ok ⟨JSValue.num 200, JSValue.str "OK", JSValue.null⟩

/-- A ping response whose unwrapped payload is the string "Pong!". -/
def pongResponse : AxiosResponse :=
  ⟨JSValue.num 200, JSValue.str "OK", JSValue.obj [("data", JSValue.str "Pong!")]⟩

/-- A transport resolving every request with `pongResponse`. -/
def pongTransport : Transport := fun _ => Except.ok pongResponse

/-- Well-formed constructor options (the values from the test suite). -/
def demoOptions : CachetOptions :=
  ⟨JSValue.str "https://demo.cachethq.io/api", JSValue.str "9yMHsdioQosnyVK4iCVR"⟩

/- Shared helper lemmas about the common method shape. -/

/-- Every method built on `runOp` issues exactly the one request it names,
whether the transport resolves or throws. -/
theorem runOp_requests (type url : String) (body : JSValue)
    (k : AxiosResponse → OpOutcome) (t : Transport) :
    (runOp type url body k t).snd = [⟨type, url, body⟩] := by
  cases h : t ⟨type, url, body⟩ <;> simp [runOp, h]

/-- When the transport throws, a `runOp` method returns the normalized error. -/
theorem runOp_error (type url : String) (body : JSValue)
    (k : AxiosResponse → OpOutcome) (t : Transport) (e : JSError)
    (h : t ⟨type, url, body⟩ = Except.error e) :
    (runOp type url body k t).fst = OpOutcome.apiError (createError url type e) := by
  simp [runOp, h]

/-- When the transport resolves, a `runOp` method returns what its return
expression makes of the response. -/
theorem runOp_ok (type url : String) (body : JSValue)
    (k : AxiosResponse → OpOutcome) (t : Transport) (resp : AxiosResponse)
    (h : t ⟨type, url, body⟩ = Except.ok resp) :
    (runOp type url body k t).fst = k resp := by
  simp [runOp, h]

/-- Double unwrapping on a resolved response whose service envelope has a
`data` binding. -/
theorem runOp_unwrap (type url : String) (body : JSValue) (t : Transport)
    (resp : AxiosResponse) (v : JSValue)
    (h : t ⟨type, url, body⟩ = Except.ok resp)
    (hv : getField resp.data "data" = Except.ok v) :
    (runOp type url body unwrapData t).fst = OpOutcome.ok v := by
  rw [runOp_ok type url body unwrapData t resp h]
  simp [unwrapData, hv]

/-- A `with_meta`-style method returns the raw axios body when the flag is
truthy. -/
theorem runOp_withMeta_raw (type url : String) (body flag : JSValue) (t : Transport)
    (resp : AxiosResponse)
    (h : t ⟨type, url, body⟩ = Except.ok resp)
    (hf : truthy flag = true) :
    (runOp type url body (withMeta flag) t).fst = OpOutcome.ok resp.data := by
  rw [runOp_ok type url body (withMeta flag) t resp h]
  simp [withMeta, hf]

/-- A `with_meta`-style method unwraps both envelope levels when the flag is
falsy. -/
theorem runOp_withMeta_unwrapped (type url : String) (body flag : JSValue)
    (t : Transport) (resp : AxiosResponse) (v : JSValue)
    (h : t ⟨type, url, body⟩ = Except.ok resp)
    (hf : truthy flag = false)
    (hv : getField resp.data "data" = Except.ok v) :
    (runOp type url body (withMeta flag) t).fst = OpOutcome.ok v := by
  rw [runOp_ok type url body (withMeta flag) t resp h]
  simp [withMeta, hf, unwrapData, hv]

/-- A delete-style method returns `true` on any resolved response. -/
theorem runOp_delete (type url : String) (body : JSValue) (t : Transport)
    (resp : AxiosResponse)
    (h : t ⟨type, url, body⟩ = Except.ok resp) :
    (runOp type url body returnTrue t).fst = OpOutcome.ok (JSValue.bool true) := by
  rw [runOp_ok type url body returnTrue t resp h]
  rfl

/-- An outcome carrying an array payload is never an outcome carrying an
object payload. -/
theorem ok_arr_ne_ok_obj (xs : List JSValue) (fs : List (String × JSValue)) :
    OpOutcome.ok (JSValue.arr xs) ≠ OpOutcome.ok (JSValue.obj fs) := by
  intro h
  injection h with h1
  exact JSValue.noConfusion h1

/-- Claim C1: every operation re-raises a thrown transport error as a single
normalized error whose message carries the HTTP method, the request path and a
diagnostic; when the caught error has a response object the diagnostic
concatenates the status code (when present), the status text (when present)
and the JSON-serialized response body (when present), and otherwise it is the
raw string form of the error. -/
theorem claim1_error_normalization (type url : String) (body : JSValue)
    (k : AxiosResponse → OpOutcome) (t : Transport) (e : JSError) :
    (t ⟨type, url, body⟩ = Except.error e →
      (runOp type url body k t).fst = OpOutcome.apiError (createError url type e))
    ∧ (truthy e.response = true →
      createError url type e =
        "Unable to " ++ type ++ " " ++ url ++ ": " ++
          ((if truthy (getProp e.response "status") then
              jsToString (getProp e.response "status") ++ " " else "")
           ++ (if truthy (getProp e.response "statusText") then
              jsToString (getProp e.response "statusText") ++ " | " else "")
           ++ (if truthy (getProp e.response "data") then
              jsonStringify (getProp e.response "data") else "")))
    ∧ (truthy e.response = false →
      createError url type e = "Unable to " ++ type ++ " " ++ url ++ ": " ++ e.str) := by
  refine ⟨fun h => runOp_error type url body k t e h, fun h => ?_, fun h => ?_⟩
  · simp [createError, h]
  · simp [createError, h]

/-- Witness for C1: on a transport that throws a 404 with a JSON body, ping
raises the normalized error with the fully evaluated diagnostic; on a network
error with no response, the diagnostic is the raw error string. -/
theorem claim1_error_normalization_witness :
    failTransport ⟨"GET", "/v1/ping", JSValue.undefined⟩ = Except.error errWithResponse
    ∧ (ping failTransport).fst =
        OpOutcome.apiError
          "Unable to GET /v1/ping: 404 Not Found | \x7b\"message\":\"not found\"\x7d"
    ∧ truthy errNoResponse.response = false
    ∧ createError "/v1/ping" "GET" errNoResponse =
        "Unable to GET /v1/ping: Error: Network Error" := by
  refine ⟨rfl, ?_, rfl, ?_⟩
  · have h := (claim1_error_normalization "GET" "/v1/ping" JSValue.undefined unwrapData
      failTransport errWithResponse).1 rfl
    rw [ping, h]
    rfl
  · have h := (claim1_error_normalization "GET" "/v1/ping" JSValue.undefined unwrapData
      failTransport errNoResponse).2.2 rfl
    rw [h]
    rfl

/-- Claim C2: each of the seven delete operations returns true whenever the
HTTP call resolves, for every id and for every response — the status code and
body of the response are never inspected. -/
theorem claim2_delete_returns_true
    (component_id group_id incident_id update_id metric_id point_id subscriber_id : JSValue)
    (t : Transport) (resp : AxiosResponse) :
    (t ⟨"DELETE", "/v1/components/" ++ jsToString component_id, JSValue.undefined⟩ =
        Except.ok resp →
      (deleteComponent component_id t).fst = OpOutcome.ok (JSValue.bool true))
    ∧ (t ⟨"DELETE", "/v1/components/groups/" ++ jsToString group_id, JSValue.undefined⟩ =
        Except.ok resp →
      (deleteComponentGroup group_id t).fst = OpOutcome.ok (JSValue.bool true))
    ∧ (t ⟨"DELETE", "/v1/incidents/" ++ jsToString incident_id, JSValue.undefined⟩ =
        Except.ok resp →
      (deleteIncident incident_id t).fst = OpOutcome.ok (JSValue.bool true))
    ∧ (t ⟨"DELETE", "/v1/incidents/" ++ jsToString incident_id ++ "/updates/" ++
          jsToString update_id, JSValue.undefined⟩ = Except.ok resp →
      (deleteIncidentUpdate incident_id update_id t).fst = OpOutcome.ok (JSValue.bool true))
    ∧ (t ⟨"DELETE", "/v1/metrics/" ++ jsToString metric_id, JSValue.undefined⟩ =
        Except.ok resp →
      (deleteMetric metric_id t).fst = OpOutcome.ok (JSValue.bool true))
    ∧ (t ⟨"DELETE", "/v1/metrics/" ++ jsToString metric_id ++ "/points/" ++
          jsToString point_id, JSValue.undefined⟩ = Except.ok resp →
      (deleteMetricPoint metric_id point_id t).fst = OpOutcome.ok (JSValue.bool true))
    ∧ (t ⟨"DELETE", "/v1/subscribers/" ++ jsToString subscriber_id, JSValue.undefined⟩ =
        Except.ok resp →
      (deleteSubscriber subscriber_id t).fst = OpOutcome.ok (JSValue.bool true)) :=
  ⟨fun h => runOp_delete _ _ _ t resp h,
   fun h => runOp_delete _ _ _ t resp h,
   fun h => runOp_delete _ _ _ t resp h,
   fun h => runOp_delete _ _ _ t resp h,
   fun h => runOp_delete _ _ _ t resp h,
   fun h => runOp_delete _ _ _ t resp h,
   fun h => runOp_delete _ _ _ t resp h⟩

/-- Witness for C2: deleting component 7 on a transport that resolves with a
500-status response carrying a nonempty body still returns true. -/
theorem claim2_delete_returns_true_witness :
    weirdDeleteTransport ⟨"DELETE", "/v1/components/" ++ jsToString (JSValue.num 7),
        JSValue.undefined⟩ = Except.ok weirdDeleteResponse
    ∧ (deleteComponent (JSValue.num 7) weirdDeleteTransport).fst =
        OpOutcome.ok (JSValue.bool true) :=
  ⟨rfl,
   (claim2_delete_returns_true (JSValue.num 7) JSValue.undefined JSValue.undefined
      JSValue.undefined JSValue.undefined JSValue.undefined JSValue.undefined
      weirdDeleteTransport weirdDeleteResponse).1 rfl⟩

/-- Claim C3 counterexample: the subscribers and metric-points list operations
have no raw-envelope flag — `getSubscribers` and `getMetricPoints` return the
unwrapped payload sequence and never the raw envelope, even on an envelope
that carries pagination metadata. -/
theorem claim3_raw_flag_counterexample :
    (getSubscribers subscribersTransport).fst =
      OpOutcome.ok (JSValue.arr [JSValue.obj [("email", JSValue.str "email@example.com")]])
    ∧ (getSubscribers subscribersTransport).fst ≠ OpOutcome.ok subscribersEnvelope
    ∧ (getMetricPoints (JSValue.num 1) metricPointsTransport).fst =
      OpOutcome.ok (JSValue.arr [JSValue.obj [("value", JSValue.num 7)]])
    ∧ (getMetricPoints (JSValue.num 1) metricPointsTransport).fst ≠
      OpOutcome.ok metricPointsEnvelope := by
  refine ⟨rfl, ?_, rfl, ?_⟩
  · intro h
    exact ok_arr_ne_ok_obj _ _
      ((rfl :
        (getSubscribers subscribersTransport).fst =
          OpOutcome.ok (JSValue.arr [JSValue.obj [("email", JSValue.str "email@example.com")]])
        ).symm.trans h)
  · intro h
    exact ok_arr_ne_ok_obj _ _
      ((rfl :
        (getMetricPoints (JSValue.num 1) metricPointsTransport).fst =
          OpOutcome.ok (JSValue.arr [JSValue.obj [("value", JSValue.num 7)]])
        ).symm.trans h)

/-- Claim C3 (amended): only getVersion, getComponents, getComponentGroups,
getIncidents, getIncidentUpdates and getMetrics accept the raw-envelope flag —
truthy flag returns the raw service envelope, falsy flag the unwrapped payload
— while getSubscribers and getMetricPoints take no flag and always return the
unwrapped payload. -/
theorem claim3_raw_flag_amended (with_meta incident_id metric_id v : JSValue)
    (t : Transport) (resp : AxiosResponse)
    (hv : getField resp.data "data" = Except.ok v) :
    (t ⟨"GET", "/v1/version", JSValue.undefined⟩ = Except.ok resp →
      (truthy with_meta = true → (getVersion with_meta t).fst = OpOutcome.ok resp.data)
      ∧ (truthy with_meta = false → (getVersion with_meta t).fst = OpOutcome.ok v))
    ∧ (t ⟨"GET", "/v1/components", JSValue.undefined⟩ = Except.ok resp →
      (truthy with_meta = true → (getComponents with_meta t).fst = OpOutcome.ok resp.data)
      ∧ (truthy with_meta = false → (getComponents with_meta t).fst = OpOutcome.ok v))
    ∧ (t ⟨"GET", "/v1/components/groups", JSValue.undefined⟩ = Except.ok resp →
      (truthy with_meta = true → (getComponentGroups with_meta t).fst = OpOutcome.ok resp.data)
      ∧ (truthy with_meta = false → (getComponentGroups with_meta t).fst = OpOutcome.ok v))
    ∧ (t ⟨"GET", "/v1/incidents", JSValue.undefined⟩ = Except.ok resp →
      (truthy with_meta = true → (getIncidents with_meta t).fst = OpOutcome.ok resp.data)
      ∧ (truthy with_meta = false → (getIncidents with_meta t).fst = OpOutcome.ok v))
    ∧ (t ⟨"GET", "/v1/incidents/" ++ jsToString incident_id ++ "/updates",
          JSValue.undefined⟩ = Except.ok resp →
      (truthy with_meta = true →
        (getIncidentUpdates incident_id with_meta t).fst = OpOutcome.ok resp.data)
      ∧ (truthy with_meta = false →
        (getIncidentUpdates incident_id with_meta t).fst = OpOutcome.ok v))
    ∧ (t ⟨"GET", "/v1/metrics", JSValue.undefined⟩ = Except.ok resp →
      (truthy with_meta = true → (getMetrics with_meta t).fst = OpOutcome.ok resp.data)
      ∧ (truthy with_meta = false → (getMetrics with_meta t).fst = OpOutcome.ok v))
    ∧ (t ⟨"GET", "/v1/subscribers", JSValue.undefined⟩ = Except.ok resp →
      (getSubscribers t).fst = OpOutcome.ok v)
    ∧ (t ⟨"GET", "/v1/metrics/" ++ jsToString metric_id ++ "/points",
          JSValue.undefined⟩ = Except.ok resp →
      (getMetricPoints metric_id t).fst = OpOutcome.ok v) :=
  ⟨fun h => ⟨fun hf => runOp_withMeta_raw _ _ _ _ t resp h hf,
             fun hf => runOp_withMeta_unwrapped _ _ _ _ t resp v h hf hv⟩,
   fun h => ⟨fun hf => runOp_withMeta_raw _ _ _ _ t resp h hf,
             fun hf => runOp_withMeta_unwrapped _ _ _ _ t resp v h hf hv⟩,
   fun h => ⟨fun hf => runOp_withMeta_raw _ _ _ _ t resp h hf,
             fun hf => runOp_withMeta_unwrapped _ _ _ _ t resp v h hf hv⟩,
   fun h => ⟨fun hf => runOp_withMeta_raw _ _ _ _ t resp h hf,
             fun hf => runOp_withMeta_unwrapped _ _ _ _ t resp v h hf hv⟩,
   fun h => ⟨fun hf => runOp_withMeta_raw _ _ _ _ t resp h hf,
             fun hf => runOp_withMeta_unwrapped _ _ _ _ t resp v h hf hv⟩,
   fun h => ⟨fun hf => runOp_withMeta_raw _ _ _ _ t resp h hf,
             fun hf => runOp_withMeta_unwrapped _ _ _ _ t resp v h hf hv⟩,
   fun h => runOp_unwrap _ _ _ t resp v h hv,
   fun h => runOp_unwrap _ _ _ t resp v h hv⟩

/-- Witness for the amended C3: on a transport resolving with a list envelope,
getComponents with a truthy flag returns the raw envelope, with a falsy flag
the payload sequence, and getSubscribers returns the payload sequence. -/
theorem claim3_raw_flag_amended_witness :
    getField okResponse.data "data" = Except.ok (JSValue.arr [JSValue.num 1, JSValue.num 2])
    ∧ okTransport ⟨"GET", "/v1/components", JSValue.undefined⟩ = Except.ok okResponse
    ∧ truthy (JSValue.bool true) = true
    ∧ (getComponents (JSValue.bool true) okTransport).fst = OpOutcome.ok okResponse.data
    ∧ truthy JSValue.undefined = false
    ∧ (getComponents JSValue.undefined okTransport).fst =
        OpOutcome.ok (JSValue.arr [JSValue.num 1, JSValue.num 2])
    ∧ (getSubscribers okTransport).fst =
        OpOutcome.ok (JSValue.arr [JSValue.num 1, JSValue.num 2]) := by
  refine ⟨rfl, rfl, rfl, ?_, rfl, ?_, ?_⟩
  · exact ((claim3_raw_flag_amended (JSValue.bool true) JSValue.undefined JSValue.undefined
      (JSValue.arr [JSValue.num 1, JSValue.num 2]) okTransport okResponse rfl).2.1 rfl).1 rfl
  · exact ((claim3_raw_flag_amended JSValue.undefined JSValue.undefined JSValue.undefined
      (JSValue.arr [JSValue.num 1, JSValue.num 2]) okTransport okResponse rfl).2.1 rfl).2 rfl
  · exact (claim3_raw_flag_amended JSValue.undefined JSValue.undefined JSValue.undefined
      (JSValue.arr [JSValue.num 1, JSValue.num 2]) okTransport okResponse rfl).2.2.2.2.2.2.1 rfl

/-- Claim C4: ping and every single-record operation unwrap exactly two
nesting levels — the axios `data` field and then the service `data` field —
and return the inner payload; when the unwrapped ping payload is the string
"Pong!", ping returns exactly that string. -/
theorem claim4_double_unwrap
    (component_id group_id incident_id update_id metric_id : JSValue)
    (component group incident update metric point subscriber v : JSValue)
    (t : Transport) (resp respP : AxiosResponse)
    (hv : getField resp.data "data" = Except.ok v) :
    (t ⟨"GET", "/v1/ping", JSValue.undefined⟩ = Except.ok resp →
      (ping t).fst = OpOutcome.ok v)
    ∧ (t ⟨"GET", "/v1/ping", JSValue.undefined⟩ = Except.ok respP →
      respP.data = JSValue.obj [("data", JSValue.str "Pong!")] →
      (ping t).fst = OpOutcome.ok (JSValue.str "Pong!"))
    ∧ (t ⟨"GET", "/v1/components/" ++ jsToString component_id, JSValue.undefined⟩ =
        Except.ok resp → (getComponent component_id t).fst = OpOutcome.ok v)
    ∧ (t ⟨"POST", "/v1/components", component⟩ = Except.ok resp →
      (addComponent component t).fst = OpOutcome.ok v)
    ∧ (t ⟨"PUT", "/v1/components/" ++ jsToString component_id, component⟩ = Except.ok resp →
      (updateComponent component_id component t).fst = OpOutcome.ok v)
    ∧ (t ⟨"GET", "/v1/components/groups/" ++ jsToString group_id, JSValue.undefined⟩ =
        Except.ok resp → (getComponentGroup group_id t).fst = OpOutcome.ok v)
    ∧ (t ⟨"POST", "/v1/components/groups", group⟩ = Except.ok resp →
      (addComponentGroup group t).fst = OpOutcome.ok v)
    ∧ (t ⟨"PUT", "/v1/components/groups/" ++ jsToString group_id, group⟩ = Except.ok resp →
      (updateComponentGroup group_id group t).fst = OpOutcome.ok v)
    ∧ (t ⟨"GET", "/v1/incidents/" ++ jsToString incident_id, JSValue.undefined⟩ =
        Except.ok resp → (getIncident incident_id t).fst = OpOutcome.ok v)
    ∧ (t ⟨"POST", "/v1/incidents", incident⟩ = Except.ok resp →
      (addIncident incident t).fst = OpOutcome.ok v)
    ∧ (t ⟨"PUT", "/v1/incidents/" ++ jsToString incident_id, incident⟩ = Except.ok resp →
      (updateIncident incident_id incident t).fst = OpOutcome.ok v)
    ∧ (t ⟨"GET", "/v1/incidents/" ++ jsToString incident_id ++ "/updates/" ++
          jsToString update_id, JSValue.undefined⟩ = Except.ok resp →
      (getIncidentUpdate incident_id update_id t).fst = OpOutcome.ok v)
    ∧ (t ⟨"POST", "/v1/incidents/" ++ jsToString incident_id ++ "/updates", update⟩ =
        Except.ok resp →
      (addIncidentUpdate incident_id update t).fst = OpOutcome.ok v)
    ∧ (t ⟨"PUT", "/v1/incidents/" ++ jsToString incident_id ++ "/updates/" ++
          jsToString update_id, update⟩ = Except.ok resp →
      (updateIncidentUpdate incident_id update_id update t).fst = OpOutcome.ok v)
    ∧ (t ⟨"GET", "/v1/metrics/" ++ jsToString metric_id, JSValue.undefined⟩ =
        Except.ok resp → (getMetric metric_id t).fst = OpOutcome.ok v)
    ∧ (t ⟨"POST", "/v1/metrics", metric⟩ = Except.ok resp →
      (addMetric metric t).fst = OpOutcome.ok v)
    ∧ (t ⟨"POST", "/v1/metrics/" ++ jsToString metric_id ++ "/points", point⟩ =
        Except.ok resp →
      (addMetricPoint metric_id point t).fst = OpOutcome.ok v)
    ∧ (t ⟨"POST", "/v1/subscribers", subscriber⟩ = Except.ok resp →
      (addSubscriber subscriber t).fst = OpOutcome.ok v) := by
  refine ⟨fun h => runOp_unwrap _ _ _ t resp v h hv,
    fun h hp => ?_,
    fun h => runOp_unwrap _ _ _ t resp v h hv,
    fun h => runOp_unwrap _ _ _ t resp v h hv,
    fun h => runOp_unwrap _ _ _ t resp v h hv,
    fun h => runOp_unwrap _ _ _ t resp v h hv,
    fun h => runOp_unwrap _ _ _ t resp v h hv,
    fun h => runOp_unwrap _ _ _ t resp v h hv,
    fun h => runOp_unwrap _ _ _ t resp v h hv,
    fun h => runOp_unwrap _ _ _ t resp v h hv,
    fun h => runOp_unwrap _ _ _ t resp v h hv,
    fun h => runOp_unwrap _ _ _ t resp v h hv,
    fun h => runOp_unwrap _ _ _ t resp v h hv,
    fun h => runOp_unwrap _ _ _ t resp v h hv,
    fun h => runOp_unwrap _ _ _ t resp v h hv,
    fun h => runOp_unwrap _ _ _ t resp v h hv,
    fun h => runOp_unwrap _ _ _ t resp v h hv,
    fun h => runOp_unwrap _ _ _ t resp v h hv⟩
  exact runOp_unwrap _ _ _ t respP (JSValue.str "Pong!") h (by rw [hp]; rfl)

/-- Witness for C4: on a transport resolving ping with the envelope whose
unwrapped payload is "Pong!", ping returns exactly "Pong!". -/
theorem claim4_double_unwrap_witness :
    pongTransport ⟨"GET", "/v1/ping", JSValue.undefined⟩ = Except.ok pongResponse
    ∧ pongResponse.data = JSValue.obj [("data", JSValue.str "Pong!")]
    ∧ (ping pongTransport).fst = OpOutcome.ok (JSValue.str "Pong!") :=
  ⟨rfl, rfl,
   (claim4_double_unwrap JSValue.undefined JSValue.undefined JSValue.undefined
      JSValue.undefined JSValue.undefined JSValue.undefined JSValue.undefined
      JSValue.undefined JSValue.undefined JSValue.undefined JSValue.undefined
      JSValue.undefined (JSValue.str "Pong!") pongTransport pongResponse pongResponse
      rfl).2.1 rfl rfl⟩

/-- Claim C5: construction throws exactly when the options object is absent or
its url is missing or the empty string; on success no request is issued, the
client is bound to the given base URL and the token is the fixed
"X-Cachet-Token" header value. -/
theorem claim5_constructor (o : CachetOptions) (s : String) :
    (mkCachetAPI none = Except.error "Error! options.url a is required option!")
    ∧ (o.url = JSValue.undefined →
      mkCachetAPI (some o) = Except.error "Error! options.url a is required option!")
    ∧ (o.url = JSValue.str "" →
      mkCachetAPI (some o) = Except.error "Error! options.url a is required option!")
    ∧ (o.url = JSValue.str s → s ≠ "" →
      mkCachetAPI (some o) = Except.ok (⟨JSValue.str s, o.apiToken⟩, [])) := by
  refine ⟨rfl, fun h => ?_, fun h => ?_, fun h hs => ?_⟩
  · simp [mkCachetAPI, h, truthy]
  · simp [mkCachetAPI, h, truthy]
  · simp [mkCachetAPI, h, truthy, hs]

/-- Witness for C5: constructing with the demo url and token succeeds, issues
no request, and fixes the base URL and token header. -/
theorem claim5_constructor_witness :
    demoOptions.url = JSValue.str "https://demo.cachethq.io/api"
    ∧ "https://demo.cachethq.io/api" ≠ ""
    ∧ mkCachetAPI (some demoOptions) =
        Except.ok (⟨JSValue.str "https://demo.cachethq.io/api", demoOptions.apiToken⟩, []) :=
  ⟨rfl, by decide,
   (claim5_constructor demoOptions "https://demo.cachethq.io/api").2.2.2 rfl (by decide)⟩

/-- Claim C6: every operation issues exactly one HTTP request; component-group
operations target /v1/components/groups with GET/GET/POST/PUT/DELETE and an
interpolated id for the single-record forms, and incident-update operations
target the two-level path under /v1/incidents with the parent incident id and,
when present, the update id interpolated. -/
theorem claim6_endpoints (type url : String) (b : JSValue)
    (k : AxiosResponse → OpOutcome) (t : Transport)
    (group_id incident_id update_id group update flag : JSValue) :
    (runOp type url b k t).snd.length = 1
    ∧ (getComponentGroups flag t).snd =
        [⟨"GET", "/v1/components/groups", JSValue.undefined⟩]
    ∧ (getComponentGroup group_id t).snd =
        [⟨"GET", "/v1/components/groups/" ++ jsToString group_id, JSValue.undefined⟩]
    ∧ (addComponentGroup group t).snd = [⟨"POST", "/v1/components/groups", group⟩]
    ∧ (updateComponentGroup group_id group t).snd =
        [⟨"PUT", "/v1/components/groups/" ++ jsToString group_id, group⟩]
    ∧ (deleteComponentGroup group_id t).snd =
        [⟨"DELETE", "/v1/components/groups/" ++ jsToString group_id, JSValue.undefined⟩]
    ∧ (getIncidentUpdates incident_id flag t).snd =
        [⟨"GET", "/v1/incidents/" ++ jsToString incident_id ++ "/updates", JSValue.undefined⟩]
    ∧ (getIncidentUpdate incident_id update_id t).snd =
        [⟨"GET", "/v1/incidents/" ++ jsToString incident_id ++ "/updates/" ++
          jsToString update_id, JSValue.undefined⟩]
    ∧ (addIncidentUpdate incident_id update t).snd =
        [⟨"POST", "/v1/incidents/" ++ jsToString incident_id ++ "/updates", update⟩]
    ∧ (updateIncidentUpdate incident_id update_id update t).snd =
        [⟨"PUT", "/v1/incidents/" ++ jsToString incident_id ++ "/updates/" ++
          jsToString update_id, update⟩]
    ∧ (deleteIncidentUpdate incident_id update_id t).snd =
        [⟨"DELETE", "/v1/incidents/" ++ jsToString incident_id ++ "/updates/" ++
          jsToString update_id, JSValue.undefined⟩] :=
  ⟨by rw [runOp_requests]; rfl,
   runOp_requests _ _ _ _ t, runOp_requests _ _ _ _ t, runOp_requests _ _ _ _ t,
   runOp_requests _ _ _ _ t, runOp_requests _ _ _ _ t, runOp_requests _ _ _ _ t,
   runOp_requests _ _ _ _ t, runOp_requests _ _ _ _ t, runOp_requests _ _ _ _ t,
   runOp_requests _ _ _ _ t⟩

/-- Claim C7 counterexample: a resolved success response whose body lacks the
service data key does not raise the normalized request error — getComponent
returns the undefined value; a null success body raises an uncaught TypeError
rather than the normalized error. -/
theorem claim7_malformed_counterexample :
    (getComponent (JSValue.num 1) missingDataTransport).fst = OpOutcome.ok JSValue.undefined
    ∧ (ping nullBodyTransport).fst = OpOutcome.typeError :=
  ⟨rfl, rfl⟩

/-- Claim C7 (amended): the normalized request error is raised exactly when
the HTTP call throws; malformed success responses are not detected — a success
body that is an object without the data key yields the undefined value as the
result, and a null or undefined success body raises an uncaught TypeError, not
the normalized error. -/
theorem claim7_malformed_amended (type url : String) (b component_id : JSValue)
    (t : Transport) (resp : AxiosResponse) (e : JSError)
    (fs : List (String × JSValue)) :
    (t ⟨type, url, b⟩ = Except.error e →
      (runOp type url b unwrapData t).fst = OpOutcome.apiError (createError url type e))
    ∧ (t ⟨type, url, b⟩ = Except.ok resp → resp.data = JSValue.obj fs →
      (runOp type url b unwrapData t).fst = OpOutcome.ok (lookupField fs "data"))
    ∧ (t ⟨type, url, b⟩ = Except.ok resp → resp.data = JSValue.null →
      (runOp type url b unwrapData t).fst = OpOutcome.typeError)
    ∧ (t ⟨type, url, b⟩ = Except.ok resp → resp.data = JSValue.undefined →
      (runOp type url b unwrapData t).fst = OpOutcome.typeError)
    ∧ (t ⟨"GET", "/v1/components/" ++ jsToString component_id, JSValue.undefined⟩ =
        Except.ok resp → resp.data = JSValue.obj fs →
      (getComponent component_id t).fst = OpOutcome.ok (lookupField fs "data")) := by
  refine ⟨fun h => runOp_error _ _ _ _ t e h,
    fun h hd => ?_, fun h hd => ?_, fun h hd => ?_, fun h hd => ?_⟩
  · rw [runOp_ok _ _ _ _ t resp h]
    simp [unwrapData, hd, getField]
  · rw [runOp_ok _ _ _ _ t resp h]
    simp [unwrapData, hd, getField]
  · rw [runOp_ok _ _ _ _ t resp h]
    simp [unwrapData, hd, getField]
  · rw [getComponent, runOp_ok _ _ _ _ t resp h]
    simp [unwrapData, hd, getField]

/-- Witness for the amended C7: on the transport resolving with a body that
lacks the data key, getComponent returns the undefined value read from the
missing field. -/
theorem claim7_malformed_amended_witness :
    missingDataTransport ⟨"GET", "/v1/components/" ++ jsToString (JSValue.num 1),
        JSValue.undefined⟩ = Except.ok ⟨JSValue.num 200, JSValue.str "OK", bodyMissingData⟩
    ∧ (⟨JSValue.num 200, JSValue.str "OK", bodyMissingData⟩ : AxiosResponse).data =
        JSValue.obj [("id", JSValue.num 1)]
    ∧ (getComponent (JSValue.num 1) missingDataTransport).fst =
        OpOutcome.ok (lookupField [("id", JSValue.num 1)] "data") :=
  ⟨rfl, rfl,
   (claim7_malformed_amended "GET" ("/v1/components/" ++ jsToString (JSValue.num 1))
      JSValue.undefined (JSValue.num 1) missingDataTransport
      ⟨JSValue.num 200, JSValue.str "OK", bodyMissingData⟩ errNoResponse
      [("id", JSValue.num 1)]).2.2.2.2 rfl rfl⟩

/-- Claim C8: every operation issues exactly one outbound request per
invocation — also when the transport throws, so no retry ever happens — and a
failing invocation surfaces exactly one normalized error; in particular for
getVersion and addComponent. -/
theorem claim8_one_request_one_error (type url : String) (b flag component : JSValue)
    (k : AxiosResponse → OpOutcome) (t : Transport) (e : JSError) :
    (runOp type url b k t).snd.length = 1
    ∧ (getVersion flag t).snd.length = 1
    ∧ (addComponent component t).snd.length = 1
    ∧ (t ⟨type, url, b⟩ = Except.error e →
      (runOp type url b k t).fst = OpOutcome.apiError (createError url type e)
      ∧ (runOp type url b k t).snd.length = 1)
    ∧ (t ⟨"GET", "/v1/version", JSValue.undefined⟩ = Except.error e →
      (getVersion flag t).fst = OpOutcome.apiError (createError "/v1/version" "GET" e))
    ∧ (t ⟨"POST", "/v1/components", component⟩ = Except.error e →
      (addComponent component t).fst =
        OpOutcome.apiError (createError "/v1/components" "POST" e)) := by
  refine ⟨by rw [runOp_requests]; rfl,
    by rw [getVersion, runOp_requests]; rfl,
    by rw [addComponent, runOp_requests]; rfl,
    fun h => ⟨runOp_error _ _ _ _ t e h, by rw [runOp_requests]; rfl⟩,
    fun h => runOp_error _ _ _ _ t e h,
    fun h => runOp_error _ _ _ _ t e h⟩

/-- Witness for C8: on the throwing transport, getVersion issues one request
and surfaces the one normalized error. -/
theorem claim8_one_request_one_error_witness :
    failTransport ⟨"GET", "/v1/version", JSValue.undefined⟩ = Except.error errWithResponse
    ∧ (getVersion JSValue.undefined failTransport).snd.length = 1
    ∧ (getVersion JSValue.undefined failTransport).fst =
        OpOutcome.apiError (createError "/v1/version" "GET" errWithResponse) :=
  ⟨rfl,
   (claim8_one_request_one_error "GET" "/v1/version" JSValue.undefined JSValue.undefined
      JSValue.undefined unwrapData failTransport errWithResponse).2.1,
   (claim8_one_request_one_error "GET" "/v1/version" JSValue.undefined JSValue.undefined
      JSValue.undefined unwrapData failTransport errWithResponse).2.2.2.2.1 rfl⟩

/-- Claim C9: for the six operations that take the raw-envelope flag, raw mode
is selected by truthiness of the flag, not by equality with true: a truthy
flag of any shape returns the raw envelope and a falsy flag the unwrapped
payload; nonzero numbers, nonempty strings and objects are truthy while false,
undefined, null, zero and the empty string are falsy. -/
theorem claim9_truthiness (with_meta incident_id v : JSValue)
    (t : Transport) (resp : AxiosResponse)
    (hv : getField resp.data "data" = Except.ok v) :
    truthy (JSValue.num 2) = true
    ∧ truthy (JSValue.str "x") = true
    ∧ truthy (JSValue.obj []) = true
    ∧ truthy (JSValue.bool false) = false
    ∧ truthy JSValue.undefined = false
    ∧ truthy JSValue.null = false
    ∧ truthy (JSValue.num 0) = false
    ∧ truthy (JSValue.str "") = false
    ∧ (t ⟨"GET", "/v1/version", JSValue.undefined⟩ = Except.ok resp →
      (truthy with_meta = true → (getVersion with_meta t).fst = OpOutcome.ok resp.data)
      ∧ (truthy with_meta = false → (getVersion with_meta t).fst = OpOutcome.ok v))
    ∧ (t ⟨"GET", "/v1/components", JSValue.undefined⟩ = Except.ok resp →
      (truthy with_meta = true → (getComponents with_meta t).fst = OpOutcome.ok resp.data)
      ∧ (truthy with_meta = false → (getComponents with_meta t).fst = OpOutcome.ok v))
    ∧ (t ⟨"GET", "/v1/components/groups", JSValue.undefined⟩ = Except.ok resp →
      (truthy with_meta = true → (getComponentGroups with_meta t).fst = OpOutcome.ok resp.data)
      ∧ (truthy with_meta = false → (getComponentGroups with_meta t).fst = OpOutcome.ok v))
    ∧ (t ⟨"GET", "/v1/incidents", JSValue.undefined⟩ = Except.ok resp →
      (truthy with_meta = true → (getIncidents with_meta t).fst = OpOutcome.ok resp.data)
      ∧ (truthy with_meta = false → (getIncidents with_meta t).fst = OpOutcome.ok v))
    ∧ (t ⟨"GET", "/v1/incidents/" ++ jsToString incident_id ++ "/updates",
          JSValue.undefined⟩ = Except.ok resp →
      (truthy with_meta = true →
        (getIncidentUpdates incident_id with_meta t).fst = OpOutcome.ok resp.data)
      ∧ (truthy with_meta = false →
        (getIncidentUpdates incident_id with_meta t).fst = OpOutcome.ok v))
    ∧ (t ⟨"GET", "/v1/metrics", JSValue.undefined⟩ = Except.ok resp →
      (truthy with_meta = true → (getMetrics with_meta t).fst = OpOutcome.ok resp.data)
      ∧ (truthy with_meta = false → (getMetrics with_meta t).fst = OpOutcome.ok v)) :=
  ⟨rfl, rfl, rfl, rfl, rfl, rfl, rfl, rfl,
   fun h => ⟨fun hf => runOp_withMeta_raw _ _ _ _ t resp h hf,
             fun hf => runOp_withMeta_unwrapped _ _ _ _ t resp v h hf hv⟩,
   fun h => ⟨fun hf => runOp_withMeta_raw _ _ _ _ t resp h hf,
             fun hf => runOp_withMeta_unwrapped _ _ _ _ t resp v h hf hv⟩,
   fun h => ⟨fun hf => runOp_withMeta_raw _ _ _ _ t resp h hf,
             fun hf => runOp_withMeta_unwrapped _ _ _ _ t resp v h hf hv⟩,
   fun h => ⟨fun hf => runOp_withMeta_raw _ _ _ _ t resp h hf,
             fun hf => runOp_withMeta_unwrapped _ _ _ _ t resp v h hf hv⟩,
   fun h => ⟨fun hf => runOp_withMeta_raw _ _ _ _ t resp h hf,
             fun hf => runOp_withMeta_unwrapped _ _ _ _ t resp v h hf hv⟩,
   fun h => ⟨fun hf => runOp_withMeta_raw _ _ _ _ t resp h hf,
             fun hf => runOp_withMeta_unwrapped _ _ _ _ t resp v h hf hv⟩⟩

/-- Witness for C9: the truthy non-boolean flag 2 selects the raw envelope for
getVersion, and the falsy empty-string flag selects the unwrapped payload. -/
theorem claim9_truthiness_witness :
    okTransport ⟨"GET", "/v1/version", JSValue.undefined⟩ = Except.ok okResponse
    ∧ getField okResponse.data "data" =
        Except.ok (JSValue.arr [JSValue.num 1, JSValue.num 2])
    ∧ truthy (JSValue.num 2) = true
    ∧ (getVersion (JSValue.num 2) okTransport).fst = OpOutcome.ok okResponse.data
    ∧ truthy (JSValue.str "") = false
    ∧ (getVersion (JSValue.str "") okTransport).fst =
        OpOutcome.ok (JSValue.arr [JSValue.num 1, JSValue.num 2]) :=
  ⟨rfl, rfl, rfl,
   ((claim9_truthiness (JSValue.num 2) JSValue.undefined
      (JSValue.arr [JSValue.num 1, JSValue.num 2]) okTransport okResponse
      rfl).2.2.2.2.2.2.2.2.1 rfl).1 rfl,
   rfl,
   ((claim9_truthiness (JSValue.str "") JSValue.undefined
      (JSValue.arr [JSValue.num 1, JSValue.num 2]) okTransport okResponse
      rfl).2.2.2.2.2.2.2.2.1 rfl).2 rfl⟩

/-- Claim C10: the raw-error-string fallback applies only when the caught
error has no truthy response object; a truthy response object with status,
statusText and data all absent yields the empty diagnostic, so the message
ends in ": " and the string form of the error is not used; when statusText is
truthy the literal " | " separator follows it. -/
theorem claim10_diagnostic_details (type url : String) (e : JSError) :
    (truthy e.response = true →
      getProp e.response "status" = JSValue.undefined →
      getProp e.response "statusText" = JSValue.undefined →
      getProp e.response "data" = JSValue.undefined →
      createError url type e = "Unable to " ++ type ++ " " ++ url ++ ": ")
    ∧ (truthy e.response = true → truthy (getProp e.response "statusText") = true →
      createError url type e =
        "Unable to " ++ type ++ " " ++ url ++ ": " ++
          ((if truthy (getProp e.response "status") then
              jsToString (getProp e.response "status") ++ " " else "")
           ++ (jsToString (getProp e.response "statusText") ++ " | ")
           ++ (if truthy (getProp e.response "data") then
              jsonStringify (getProp e.response "data") else "")))
    ∧ (truthy e.response = false →
      createError url type e = "Unable to " ++ type ++ " " ++ url ++ ": " ++ e.str) := by
  refine ⟨fun h hs ht hd => ?_, fun h ht => ?_, fun h => ?_⟩
  · have hu : truthy JSValue.undefined = false := rfl
    simp [createError, h, hs, ht, hd, hu]
  · simp [createError, h, ht]
  · simp [createError, h]

/-- Witness for C10: an error carrying an empty response object yields the
message ending in ": " and its own string form "Error: boom" is not used. -/
theorem claim10_diagnostic_details_witness :
    truthy errEmptyResponse.response = true
    ∧ getProp errEmptyResponse.response "status" = JSValue.undefined
    ∧ getProp errEmptyResponse.response "statusText" = JSValue.undefined
    ∧ getProp errEmptyResponse.response "data" = JSValue.undefined
    ∧ createError "/v1/ping" "GET" errEmptyResponse = "Unable to GET /v1/ping: " := by
  refine ⟨rfl, rfl, rfl, rfl, ?_⟩
  have h := (claim10_diagnostic_details "GET" "/v1/ping" errEmptyResponse).1 rfl rfl rfl rfl
  rw [h]
  rfl
